import Mathlib

/-!
Shallow embedding of the turn-orchestration core of
`src/agent-js/reasoning_agent.js` (ARC-AGI-3 reasoning agent, Node).

The embedding follows the source file:
* constants (`MAX_ACTIONS`, `MESSAGE_LIMIT`, `ACTION_NAME_BY_ID`);
* the decision-tool schema builder `buildReasoningTools`;
* the action-extraction part of `callOpenAI` (first `function_call`
  in the response output, `RESET` fallback, coordinate clamping);
* the payload construction and guid update of `doAction`;
* the agent state (`guid`, `frames`, `history`, `screenHistory`,
  `actionCounter`, `turns`) with `clearHistory`, `flattenTurns`
  and the main `loop`.

External collaborators (HTTP transport, the OpenAI client, the canvas
renderer) are out of scope; they are modelled as oracle inputs: the
response output items and the backend frame for each iteration are
supplied by a script, and a `none` frame models a thrown submission.
JavaScript numbers appearing as coordinates are modelled as `Int`
(`Math.trunc` is the identity there); absent/non-number JSON values are
`Option.none`; JavaScript string truthiness is an explicit `= ""` test.
-/

namespace ReasoningAgent

/-- Source constant `MAX_ACTIONS = 400`. -/
def MAX_ACTIONS : Nat := 400

/-- Source constant `MESSAGE_LIMIT = 5`. -/
def MESSAGE_LIMIT : Nat := 5

/-- Source constant screen-history cap 10 (the loop compares against the literal 10). -/
def SCREEN_HISTORY_LIMIT : Nat := 10

/-- Source map `ACTION_NAME_BY_ID` from the action ids 0–7 to the names RESET, ACTION1, …, ACTION7. -/
def ACTION_NAME_BY_ID (id : Nat) : Option String :=
  match id with
  | 0 => some "RESET"
  | 1 => some "ACTION1"
  | 2 => some "ACTION2"
  | 3 => some "ACTION3"
  | 4 => some "ACTION4"
  | 5 => some "ACTION5"
  | 6 => some "ACTION6"
  | 7 => some "ACTION7"
  | _ => none

/-- A frame returned by the ARC backend, restricted to the fields the
orchestrator consumes (`score`, `state`, `full_reset`, `guid`,
`available_actions`); the grid layers feed only the out-of-scope renderer. -/
structure Frame where
  score : Int
  state : String
  full_reset : Bool
  guid : Option String
  available_actions : Option (List Nat)
deriving DecidableEq, Repr

/-- Parsed `choose_action` arguments (`JSON.parse(item.arguments)`);
a field is `none` when absent or of the wrong JSON type. -/
structure DecisionArgs where
  action : Option String
  x : Option Int
  y : Option Int
  reason : Option String
  short_description : Option String
  hypothesis : Option String
  aggregated_findings : Option String
deriving DecidableEq, Repr

/-- Empty parsed arguments: the initial value, also used when `JSON.parse` fails. -/
def emptyArgs : DecisionArgs := ⟨none, none, none, none, none, none, none⟩

/-- One item of `response.output`: either a `function_call` (with parsed
arguments and `call_id`) or any other item kind. -/
inductive OutputItem where
  | functionCall (args : DecisionArgs) (callId : Option String)
  | other
deriving DecidableEq, Repr

/-- One item of the Responses-API conversation: the per-turn user message
(whose text is determined by the allowed-action list shown to the model),
an assistant output item, or the `function_call_output` summary. -/
inductive ConvItem where
  | userMsg (allowedNames : List String)
  | assistantItem (item : OutputItem)
  | toolOutput (callId : String) (action : String) (coords : Option (Int × Int))
      (score : Int) (state : String) (fullReset : Bool)
deriving DecidableEq, Repr

/-- One turn pushed onto `this.turns`:
`[userMessage, ...assistantOutputItems, toolOutputItem]`. -/
abbrev TurnRecord : Type := List ConvItem

/-- Record of name, reason, short_description, hypothesis, aggregated_findings
kept in `this.history` (a `ReasoningActionResponse`). -/
structure HistoryEntry where
  name : String
  reason : String
  short_description : String
  hypothesis : String
  aggregated_findings : String
deriving DecidableEq, Repr

-- ---- Turn window (this.turns) ----

/-- Source operation `xs.slice(-n)`: the last `n` elements (all of them when `xs` is shorter). -/
def takeLast (n : Nat) (xs : List α) : List α := xs.drop (xs.length - n)

/-- Push one turn and enforce the cap `k`, as the loop does:
`this.turns.push(turn); if (this.turns.length > k) this.turns = this.turns.slice(-k)`. -/
def pushTurnCap (k : Nat) (turns : List TurnRecord) (t : TurnRecord) : List TurnRecord :=
  if (turns ++ [t]).length > k then takeLast k (turns ++ [t]) else turns ++ [t]

/-- The loop's push with the source's cap `MESSAGE_LIMIT`. -/
def pushTurn (turns : List TurnRecord) (t : TurnRecord) : List TurnRecord :=
  pushTurnCap MESSAGE_LIMIT turns t

/-- Source method `flattenTurns()` generalised over the cap:
`this.turns.slice(Math.max(0, this.turns.length - k)).flat()`
(`Nat` subtraction is exactly `Math.max(0, … - k)`). -/
def flattenTurnsCap (k : Nat) (turns : List TurnRecord) : List ConvItem :=
  (turns.drop (turns.length - k)).flatten

/-- Source method `flattenTurns()` with the cap `MESSAGE_LIMIT`. -/
def flattenTurns (turns : List TurnRecord) : List ConvItem :=
  flattenTurnsCap MESSAGE_LIMIT turns

-- ---- Action schema builder (buildReasoningTools) ----

/-- JSON-schema `type` values used by the tool. -/
inductive FieldType where
  | string
  | integerOrNull
deriving DecidableEq, Repr

/-- One property of the `choose_action` parameter schema. -/
structure FieldSpec where
  type : FieldType
  description : String
  minLength : Option Nat
  maxLength : Option Nat
  minimum : Option Int
  maximum : Option Int
  enum : Option (List String)
deriving DecidableEq, Repr

/-- The `parameters` object of the tool. -/
structure ToolParameters where
  properties : List (String × FieldSpec)
  required : List String
  additionalProperties : Bool
deriving DecidableEq, Repr

/-- A Responses-API function tool. -/
structure Tool where
  type : String
  name : String
  description : String
  parameters : ToolParameters
  strict : Bool
deriving DecidableEq, Repr

/-- The five base properties of `buildReasoningTools`. -/
def baseProperties (allowedNames : List String) : List (String × FieldSpec) :=
  [("reason",
    ⟨FieldType.string, "Detailed reasoning for choosing this action",
      some 10, some 2000, none, none, none⟩),
   ("short_description",
    ⟨FieldType.string, "Brief description of the action",
      some 5, some 500, none, none, none⟩),
   ("hypothesis",
    ⟨FieldType.string, "Current hypothesis about game mechanics",
      some 10, some 2000, none, none, none⟩),
   ("aggregated_findings",
    ⟨FieldType.string, "Summary of discoveries and learnings so far",
      some 10, some 2000, none, none, none⟩),
   ("action",
    ⟨FieldType.string,
      "Choose one of: " ++ String.intercalate ", " allowedNames,
      none, none, none, none, some allowedNames⟩)]

/-- The `x` property added when `ACTION6` is allowed. -/
def xFieldSpec : FieldSpec :=
  ⟨FieldType.integerOrNull,
    "Required when action==ACTION6. X coordinate in [0,63]; otherwise null.",
    none, none, some 0, some 63, none⟩

/-- The `y` property added when `ACTION6` is allowed. -/
def yFieldSpec : FieldSpec :=
  ⟨FieldType.integerOrNull,
    "Required when action==ACTION6. Y coordinate in [0,63]; otherwise null.",
    none, none, some 0, some 63, none⟩

/-- The base `required` list. -/
def baseRequired : List String :=
  ["reason", "short_description", "hypothesis", "aggregated_findings", "action"]

/-- The `parameters` of `choose_action`; `x`, `y` are appended to
`properties` and `required` exactly when `ACTION6` is among the allowed
names (`allowedNames.includes` of the ACTION6 name). -/
def chooseActionParameters (allowedNames : List String) : ToolParameters :=
  if "ACTION6" ∈ allowedNames then
    { properties := baseProperties allowedNames ++ [("x", xFieldSpec), ("y", yFieldSpec)]
      required := baseRequired ++ ["x", "y"]
      additionalProperties := false }
  else
    { properties := baseProperties allowedNames
      required := baseRequired
      additionalProperties := false }

/-- The single `choose_action` tool built by `buildReasoningTools`. -/
def chooseActionTool (allowedNames : List String) : Tool :=
  { type := "function"
    name := "choose_action"
    description :=
      "Choose exactly one game action from ["
        ++ String.intercalate ", " allowedNames ++ "] and justify it."
        ++ (if "ACTION6" ∈ allowedNames then " If ACTION6, include integer x,y in [0,63]." else "")
    parameters := chooseActionParameters allowedNames
    strict := true }

/-- Source function `buildReasoningTools(allowedNames)`: a one-element tool array. -/
def buildReasoningTools (allowedNames : List String) : List Tool :=
  [chooseActionTool allowedNames]

/-- Default action names ACTION1, ACTION2, ACTION3, ACTION4, used when the frame
provides no usable `available_actions`. -/
def defaultNames : List String := ["ACTION1", "ACTION2", "ACTION3", "ACTION4"]

/-- The allowed-name computation of `callOpenAI`: map the frame's
`available_actions` ids through `ACTION_NAME_BY_ID` (dropping unknown ids),
fall back to the default set when the list is absent or empty, then
push `RESET`. -/
def allowedNamesOf (f : Frame) : List String :=
  (match f.available_actions with
   | some ids => if ids = [] then defaultNames else ids.filterMap ACTION_NAME_BY_ID
   | none => defaultNames) ++ ["RESET"]

/-- Same computation when the latest frame may be missing
(`latestFrame?.available_actions` on `undefined` yields the default set). -/
def allowedNamesOpt (latest : Option Frame) : List String :=
  match latest with
  | some f => allowedNamesOf f
  | none => defaultNames ++ ["RESET"]

-- ---- Action extraction (the decision part of callOpenAI) ----

/-- Source expression `Math.min(63, Math.max(0, Math.trunc(v)))` on an integer coordinate. -/
def clampCoord (v : Int) : Int := min 63 (max 0 v)

/-- Find the first `function_call` item of `response.output` (the loop in
`callOpenAI` breaks after the first one). -/
def firstFunctionCall : List OutputItem → Option (DecisionArgs × Option String)
  | [] => none
  | OutputItem.functionCall args callId :: _ => some (args, callId)
  | OutputItem.other :: rest => firstFunctionCall rest

/-- The result of the extraction: the chosen action name, the sanitized
coordinates for `ACTION6`, whether `console.warn` was emitted, the parsed
arguments, and the `call_id`. -/
structure CallResult where
  actionName : String
  actionData : Option (Int × Int)
  warned : Bool
  args : DecisionArgs
  functionCallId : Option String
deriving DecidableEq, Repr

/-- The action-extraction logic of `callOpenAI`: `actionName` starts as
RESET; the first `function_call` overrides it when its arguments carry a
string `action`; when the chosen action is `ACTION6`, numeric `x`, `y` are
truncated and clamped to `[0,63]`, and missing or non-numeric coordinates are
replaced by `(0,0)` with a logged warning. -/
def runCallOpenAI (out : List OutputItem) : CallResult :=
  match firstFunctionCall out with
  | none => ⟨"RESET", none, false, emptyArgs, none⟩
  | some (args, callId) =>
    let actionName := Option.getD args.action "RESET"
    if actionName = "ACTION6" then
      match args.x, args.y with
      | some x, some y => ⟨actionName, some (clampCoord x, clampCoord y), false, args, callId⟩
      | some _, none => ⟨actionName, some (0, 0), true, args, callId⟩
      | none, some _ => ⟨actionName, some (0, 0), true, args, callId⟩
      | none, none => ⟨actionName, some (0, 0), true, args, callId⟩
    else ⟨actionName, none, false, args, callId⟩

/-- The action name extracted from a response, when one is present:
`none` models “no function call in the output, or arguments lacking a
string action field”. -/
def extractableAction (out : List OutputItem) : Option String :=
  match firstFunctionCall out with
  | none => none
  | some (args, _) => args.action

-- ---- doAction: payload construction and guid update ----

/-- The JSON body posted by `doAction` (`reasoning` metadata is an opaque
object; only its presence is modelled). -/
structure ActionPayload where
  game_id : String
  guid : Option String
  card_id : Option String
  reasoningPresent : Bool
  x : Option Int
  y : Option Int
deriving DecidableEq, Repr

/-- JavaScript truthiness of an optional string (`null` and the empty string are falsy). -/
def truthyStr (o : Option String) : Option String :=
  match o with
  | some s => if s = "" then none else some s
  | none => none

/-- Payload construction of `doAction`: `guid` is attached when the stored
token is non-empty, `card_id` when the action is `RESET` and a truthy card id
is stored, and `x`, `y` when the action is `ACTION6` and action data exists. -/
def buildActionPayload (gameId : String) (guid : String) (cardId : Option String)
    (actionName : String) (reasoningPresent : Bool)
    (actionData : Option (Int × Int)) : ActionPayload :=
  { game_id := gameId
    guid := if guid = "" then none else some guid
    card_id := if actionName = "RESET" then truthyStr cardId else none
    reasoningPresent := reasoningPresent
    x := if actionName = "ACTION6" then Option.map Prod.fst actionData else none
    y := if actionName = "ACTION6" then Option.map Prod.snd actionData else none }

/-- Source statement `if (data?.guid) this.guid = data.guid`: the stored token is replaced
exactly when the response carries a truthy (non-empty) `guid`. -/
def updateGuid (old : String) (respGuid : Option String) : String :=
  match respGuid with
  | some g => if g = "" then old else g
  | none => old

-- ---- Agent state and the turn loop ----

/-- The mutable fields of `ReasoningAgentJS` the loop reads or writes. -/
structure AgentState where
  gameId : String
  cardId : Option String
  guid : String
  frames : List Frame
  history : List HistoryEntry
  screenHistory : List String
  actionCounter : Nat
  turns : List TurnRecord
deriving DecidableEq, Repr

/-- Source method `clearHistory()`: empties `this.history` and `this.screenHistory`
(and nothing else — in particular not `this.turns`). -/
def clearHistory (s : AgentState) : AgentState :=
  { s with history := [], screenHistory := [] }

/-- The flattened window `flattenTurns()` prepended to the fresh user message
to form the decision call's input. -/
def decisionWindow (s : AgentState) : List ConvItem :=
  flattenTurns s.turns

/-- Source expression `this.frames[this.frames.length - 1]` (`none` when empty). -/
def latestFrame (s : AgentState) : Option Frame := s.frames.getLast?

/-- Source test of `latest?.state` against WIN (`false` on a missing frame). -/
def latestIsWin (s : AgentState) : Bool :=
  match latestFrame s with
  | some f => f.state == "WIN"
  | none => false

/-- The rendered screenshot of the latest frame. Rendering
(`gridToPngBase64`) is an out-of-scope pure collaborator; its payload is
modelled as an abstract token. -/
def renderScreen (_latest : Option Frame) : String := "png"

/-- The history entry `{name, reason, …}` recorded for one decision
(`args.reason` with the empty-string default, etc.). -/
def mkHistoryEntry (r : CallResult) : HistoryEntry :=
  ⟨r.actionName,
    Option.getD r.args.reason "",
    Option.getD r.args.short_description "",
    Option.getD r.args.hypothesis "",
    Option.getD r.args.aggregated_findings ""⟩

/-- Source statements `this.screenHistory.push(b); if (length > 10) shift()`. -/
def pushScreen (hist : List String) (b : String) : List String :=
  if (hist ++ [b]).length > SCREEN_HISTORY_LIMIT then (hist ++ [b]).drop 1 else hist ++ [b]

/-- The turn record pushed after a successful submission:
`[userMessage, ...responseOutputItems, toolOutput]`, where the tool output
records `call_id` (or the default call_0), the action, its coordinates, and the
resulting frame's score / state / full-reset flag. -/
def mkTurnRecord (latest : Option Frame) (out : List OutputItem) (r : CallResult)
    (next : Frame) : TurnRecord :=
  ConvItem.userMsg (allowedNamesOpt latest)
    :: out.map ConvItem.assistantItem
    ++ [ConvItem.toolOutput (Option.getD r.functionCallId "call_0") r.actionName
          r.actionData next.score next.state next.full_reset]

/-- The state mutations performed before the submission: persist the current
screen and push the history entry for the extracted decision. -/
def afterDecide (out : List OutputItem) (s : AgentState) : AgentState :=
  { s with
    screenHistory := pushScreen s.screenHistory (renderScreen (latestFrame s))
    history := s.history ++ [mkHistoryEntry (runCallOpenAI out)] }

/-- Source statement `if (next?.full_reset) this.clearHistory()`. -/
def applyFullReset (fullReset : Bool) (s : AgentState) : AgentState :=
  if fullReset then clearHistory s else s

/-- The state mutations performed once `doAction` has returned frame `next`:
store the response guid, append the frame, increment the counter, push the
completed turn record (with the `MESSAGE_LIMIT` trim), and clear the history
lists when the backend signals a full reset. -/
def afterSubmit (out : List OutputItem) (next : Frame) (s : AgentState) : AgentState :=
  applyFullReset next.full_reset
    { s with
      guid := updateGuid s.guid next.guid
      frames := s.frames ++ [next]
      actionCounter := s.actionCounter + 1
      turns := pushTurn s.turns (mkTurnRecord (latestFrame s) out (runCallOpenAI out) next) }

/-- The payload `doAction` posts for the decision extracted from `out`
(the loop always passes reasoning metadata). -/
def submittedPayload (out : List OutputItem) (s : AgentState) : ActionPayload :=
  buildActionPayload s.gameId s.guid s.cardId (runCallOpenAI out).actionName true
    (runCallOpenAI out).actionData

/-- One body iteration of the main loop, driven by the oracle response
`out` (the decision client's output items) and `respFrame` (the backend's
frame for the submission, `none` when the `doAction` post throws).  On a
throw, the loop aborts with the state as mutated so far (`afterDecide`);
no turn record has been pushed. -/
def stepTurn (out : List OutputItem) (respFrame : Option Frame) (s : AgentState) :
    Except AgentState AgentState :=
  match respFrame with
  | none => Except.error (afterDecide out s)
  | some next => Except.ok (afterSubmit out next (afterDecide out s))

/-- A successful iteration increments `actionCounter` by exactly one. -/
theorem stepTurn_ok_counter (out : List OutputItem) (respFrame : Option Frame)
    (s s' : AgentState) (h : stepTurn out respFrame s = Except.ok s') :
    s'.actionCounter = s.actionCounter + 1 := by
  cases respFrame with
  | none => simp [stepTurn] at h
  | some next =>
    simp only [stepTurn, Except.ok.injEq] at h
    subst h
    unfold afterSubmit applyFullReset clearHistory afterDecide
    split <;> rfl

/-- The environment script: for each iteration (indexed by the action
counter) the decision client's output items and the backend's response
frame (`none` = the submission throws). -/
def Script : Type := Nat → List OutputItem × Option Frame

/-- The main loop `while (this.actionCounter < MAX_ACTIONS) { … }`:
check the budget, stop on a recorded `WIN` frame, otherwise run one
decide→submit→record iteration.  Returns the final state (or the state at
an aborting throw) together with the number of decision/submission
iterations performed. -/
def loop (script : Script) (s : AgentState) : Except AgentState AgentState × Nat :=
  if _h : s.actionCounter < MAX_ACTIONS then
    if latestIsWin s then (Except.ok s, 0)
    else
      match hstep : stepTurn (script s.actionCounter).1 (script s.actionCounter).2 s with
      | Except.error e => (Except.error e, 1)
      | Except.ok s' =>
        let r := loop script s'
        (r.1, r.2 + 1)
  else (Except.ok s, 0)
termination_by MAX_ACTIONS - s.actionCounter
decreasing_by
  have hc := stepTurn_ok_counter _ _ _ _ hstep
  omega

/-- The state of a fresh `ReasoningAgentJS` right after the initial
unconditional `RESET` produced `firstFrame`. -/
def initialState (gameId : String) (cardId : Option String) (firstFrame : Frame) :
    AgentState :=
  { gameId := gameId
    cardId := cardId
    guid := updateGuid "" firstFrame.guid
    frames := [firstFrame]
    history := []
    screenHistory := []
    actionCounter := 0
    turns := [] }

-- ---- Window lemmas ----

/-- Taking `slice(-n)` of a list not longer than `n` is the whole list. -/
theorem takeLast_of_le {α : Type} {n : Nat} {xs : List α} (h : xs.length ≤ n) :
    takeLast n xs = xs := by
  unfold takeLast
  rw [Nat.sub_eq_zero_of_le h, List.drop_zero]

/-- Taking `slice(-0)` is empty in this model (`drop length`). -/
theorem takeLast_zero {α : Type} (xs : List α) : takeLast 0 xs = [] := by
  unfold takeLast
  simp

/-- The last `n` elements are no more than `n` elements. -/
theorem takeLast_length_le {α : Type} (n : Nat) (xs : List α) :
    (takeLast n xs).length ≤ n := by
  unfold takeLast
  simp only [List.length_drop]
  omega

/-- On a list of length at least `n`, `slice(-n)` has length exactly `n`. -/
theorem takeLast_length_of_le {α : Type} {n : Nat} {xs : List α} (h : n ≤ xs.length) :
    (takeLast n xs).length = n := by
  unfold takeLast
  simp only [List.length_drop]
  omega

/-- Appending one element on the right shifts `slice(-k)` by one. -/
theorem takeLast_append_singleton {α : Type} {k : Nat} (hk : 1 ≤ k) (xs : List α) (t : α) :
    takeLast k (xs ++ [t]) = takeLast (k - 1) xs ++ [t] := by
  unfold takeLast
  rw [List.length_append, List.length_cons, List.length_nil,
    List.drop_append_of_le_length (by omega)]
  congr 2
  omega

/-- The windowed push agrees with `slice(-k)` over the whole append history. -/
theorem pushTurnCap_takeLast (k : Nat) (xs : List TurnRecord) (t : TurnRecord) :
    pushTurnCap k (takeLast k xs) t = takeLast k (xs ++ [t]) := by
  unfold pushTurnCap
  by_cases hlen : xs.length < k
  · rw [takeLast_of_le (show xs.length ≤ k by omega)]
    rw [if_neg (by simp only [List.length_append, List.length_cons, List.length_nil]; omega)]
    rw [takeLast_of_le (by simp only [List.length_append, List.length_cons, List.length_nil]; omega)]
  · push_neg at hlen
    by_cases hk : k = 0
    · subst hk
      rw [if_pos (by simp)]
      rw [takeLast_zero, takeLast_zero]
    · have hk1 : 1 ≤ k := by omega
      have hA : (takeLast k xs).length = k := takeLast_length_of_le hlen
      rw [if_pos (by simp only [List.length_append, List.length_cons, List.length_nil, hA]; omega)]
      rw [takeLast_append_singleton hk1, takeLast_append_singleton hk1]
      congr 1
      simp only [takeLast]
      rw [List.length_drop, List.drop_drop]
      congr 1
      omega

/-- Folding the windowed push over any append history from the empty window
yields exactly the `slice(-k)` of the history. -/
theorem foldl_pushTurnCap (k : Nat) (records : List TurnRecord) :
    List.foldl (pushTurnCap k) [] records = takeLast k records := by
  induction records using List.reverseRecOn with
  | nil => rw [takeLast_of_le (by simp)]; rfl
  | append_singleton xs x ih =>
    rw [List.foldl_append, List.foldl_cons, List.foldl_nil, ih, pushTurnCap_takeLast]

/-- Flattening a window within its cap keeps every record, in order. -/
theorem flattenTurnsCap_of_le {k : Nat} {turns : List TurnRecord} (h : turns.length ≤ k) :
    flattenTurnsCap k turns = turns.flatten := by
  unfold flattenTurnsCap
  rw [Nat.sub_eq_zero_of_le h, List.drop_zero]

/-- C2: for every window cap `k` (the source instantiates `k` with
`MESSAGE_LIMIT = 5`) and every append history of `n ≥ k` turn records,
the window obtained by pushing them all (with the loop's trim) holds
exactly the `k` most recently appended records, in chronological order,
and flattening the window yields precisely those records' items in that
order. -/
theorem claim_C2_window_cap (k : Nat) (records : List TurnRecord)
    (h : k ≤ records.length) :
    List.foldl (pushTurnCap k) [] records = takeLast k records ∧
    (List.foldl (pushTurnCap k) [] records).length = k ∧
    flattenTurnsCap k (List.foldl (pushTurnCap k) [] records) =
      (takeLast k records).flatten := by
  have h1 := foldl_pushTurnCap k records
  refine ⟨h1, ?_, ?_⟩
  · rw [h1]
    exact takeLast_length_of_le h
  · rw [h1]
    exact flattenTurnsCap_of_le (takeLast_length_le k records)

/-- A concrete single-item turn record used by witnesses. -/
def wRec (i : Int) : TurnRecord :=
  [ConvItem.toolOutput "call_w" "ACTION1" none i "PLAYING" false]

/-- Witness for C2 at `k = MESSAGE_LIMIT = 5` and six appended records. -/
theorem claim_C2_witness :
    MESSAGE_LIMIT ≤ ([wRec 1, wRec 2, wRec 3, wRec 4, wRec 5, wRec 6] : List TurnRecord).length ∧
    (List.foldl (pushTurnCap MESSAGE_LIMIT) [] [wRec 1, wRec 2, wRec 3, wRec 4, wRec 5, wRec 6] =
        takeLast MESSAGE_LIMIT [wRec 1, wRec 2, wRec 3, wRec 4, wRec 5, wRec 6] ∧
      (List.foldl (pushTurnCap MESSAGE_LIMIT) [] [wRec 1, wRec 2, wRec 3, wRec 4, wRec 5, wRec 6]).length =
        MESSAGE_LIMIT ∧
      flattenTurnsCap MESSAGE_LIMIT
          (List.foldl (pushTurnCap MESSAGE_LIMIT) [] [wRec 1, wRec 2, wRec 3, wRec 4, wRec 5, wRec 6]) =
        (takeLast MESSAGE_LIMIT [wRec 1, wRec 2, wRec 3, wRec 4, wRec 5, wRec 6]).flatten) :=
  ⟨by decide,
    claim_C2_window_cap MESSAGE_LIMIT [wRec 1, wRec 2, wRec 3, wRec 4, wRec 5, wRec 6] (by decide)⟩

-- ---- Loop termination lemmas ----

/-- The decision count of `loop` is bounded by the remaining action budget. -/
theorem loop_count_le (script : Script) :
    ∀ (n : Nat) (s : AgentState), MAX_ACTIONS - s.actionCounter ≤ n →
      (loop script s).2 ≤ MAX_ACTIONS - s.actionCounter := by
  intro n
  induction n with
  | zero =>
    intro s h
    rw [loop]
    have hnc : ¬ s.actionCounter < MAX_ACTIONS := by omega
    simp [hnc]
  | succ n ih =>
    intro s h
    rw [loop]
    split
    · rename_i hlt
      split
      · simp
      · split
        · dsimp only
          omega
        · rename_i s' hstep
          have hc := stepTurn_ok_counter _ _ _ _ hstep
          have hle := ih s' (by omega)
          dsimp only
          omega
    · simp

/-- C3: the main loop performs at most `MAX_ACTIONS` (400)
decision/submission iterations — at most the remaining budget
`MAX_ACTIONS - actionCounter` — it performs none once the counter has
reached `MAX_ACTIONS`, and it performs none when the latest recorded
frame's lifecycle state is `WIN` (no further decision call is issued after
the winning turn is recorded). -/
theorem claim_C3_termination (script : Script) (s : AgentState) :
    (loop script s).2 ≤ MAX_ACTIONS ∧
    (loop script s).2 ≤ MAX_ACTIONS - s.actionCounter ∧
    (MAX_ACTIONS ≤ s.actionCounter → (loop script s).2 = 0) ∧
    (latestIsWin s = true → (loop script s).2 = 0) := by
  have hle := loop_count_le script (MAX_ACTIONS - s.actionCounter) s le_rfl
  refine ⟨le_trans hle (by omega), hle, ?_, ?_⟩
  · intro h
    rw [loop, dif_neg (by omega)]
  · intro hwin
    rw [loop]
    by_cases h : s.actionCounter < MAX_ACTIONS
    · rw [dif_pos h, if_pos hwin]
    · rw [dif_neg h]

/-- A script whose decision responses are empty and whose submissions throw. -/
def scr0 : Script := fun _ => ([], none)

/-- A frame whose lifecycle state is `WIN`. -/
def winFrame : Frame := ⟨1, "WIN", false, none, none⟩

/-- A state that has recorded a winning frame with an exhausted budget. -/
def sWin : AgentState := ⟨"game", none, "", [winFrame], [], [], MAX_ACTIONS, []⟩

/-- Witness for C3: on a state with a recorded `WIN` frame (and exhausted
budget) the loop issues zero further decisions. -/
theorem claim_C3_witness :
    MAX_ACTIONS ≤ sWin.actionCounter ∧ latestIsWin sWin = true ∧
    (loop scr0 sWin).2 = 0 ∧ (loop scr0 sWin).2 ≤ MAX_ACTIONS :=
  ⟨by decide, by decide,
    (claim_C3_termination scr0 sWin).2.2.1 (by decide),
    (claim_C3_termination scr0 sWin).1⟩

-- ---- Schema claims ----

/-- C4: for every permitted-action set `S`: when the coordinate action
`ACTION6` is not in `S`, the decision schema produced by
`buildReasoningTools` contains no `x` or `y` properties and does not
require them; when `ACTION6` is in `S`, `x` and `y` are present as
required integer-or-null fields bounded to `[0,63]`, documented to be
null exactly when a non-coordinate action is chosen. -/
theorem claim_C4_schema (S : List String) :
    ("ACTION6" ∉ S →
      (∀ p ∈ (chooseActionTool S).parameters.properties, p.1 ≠ "x" ∧ p.1 ≠ "y") ∧
      "x" ∉ (chooseActionTool S).parameters.required ∧
      "y" ∉ (chooseActionTool S).parameters.required) ∧
    ("ACTION6" ∈ S →
      ("x", xFieldSpec) ∈ (chooseActionTool S).parameters.properties ∧
      ("y", yFieldSpec) ∈ (chooseActionTool S).parameters.properties ∧
      "x" ∈ (chooseActionTool S).parameters.required ∧
      "y" ∈ (chooseActionTool S).parameters.required ∧
      xFieldSpec.type = FieldType.integerOrNull ∧
      xFieldSpec.minimum = some 0 ∧ xFieldSpec.maximum = some 63 ∧
      yFieldSpec.type = FieldType.integerOrNull ∧
      yFieldSpec.minimum = some 0 ∧ yFieldSpec.maximum = some 63 ∧
      xFieldSpec.description =
        "Required when action==ACTION6. X coordinate in [0,63]; otherwise null." ∧
      yFieldSpec.description =
        "Required when action==ACTION6. Y coordinate in [0,63]; otherwise null." ∧
      buildReasoningTools S = [chooseActionTool S]) := by
  constructor
  · intro h6
    have hprops : (chooseActionTool S).parameters.properties = baseProperties S := by
      show (chooseActionParameters S).properties = baseProperties S
      unfold chooseActionParameters
      rw [if_neg h6]
    have hreq : (chooseActionTool S).parameters.required = baseRequired := by
      show (chooseActionParameters S).required = baseRequired
      unfold chooseActionParameters
      rw [if_neg h6]
    rw [hprops, hreq]
    refine ⟨?_, by decide, by decide⟩
    intro p hp
    have h1 : p.1 ∈ baseRequired := by
      have hkeys : (baseProperties S).map Prod.fst = baseRequired := rfl
      rw [← hkeys]
      exact List.mem_map_of_mem Prod.fst hp
    constructor
    · intro hx
      rw [hx] at h1
      exact absurd h1 (by decide)
    · intro hy
      rw [hy] at h1
      exact absurd h1 (by decide)
  · intro h6
    have hprops : (chooseActionTool S).parameters.properties =
        baseProperties S ++ [("x", xFieldSpec), ("y", yFieldSpec)] := by
      show (chooseActionParameters S).properties = _
      unfold chooseActionParameters
      rw [if_pos h6]
    have hreq : (chooseActionTool S).parameters.required = baseRequired ++ ["x", "y"] := by
      show (chooseActionParameters S).required = _
      unfold chooseActionParameters
      rw [if_pos h6]
    rw [hprops, hreq]
    refine ⟨?_, ?_, by decide, by decide, rfl, rfl, rfl, rfl, rfl, rfl, rfl, rfl, rfl⟩
    · exact List.mem_append_right _ (by simp)
    · exact List.mem_append_right _ (by simp)

/-- Witness for C4: the coordinate fields are absent and unrequired for
`["ACTION1", "RESET"]` and present, bounded, and required for
`["ACTION1", "ACTION6", "RESET"]`. -/
theorem claim_C4_witness :
    ("x" ∉ (chooseActionTool ["ACTION1", "RESET"]).parameters.required ∧
     "y" ∉ (chooseActionTool ["ACTION1", "RESET"]).parameters.required) ∧
    (("x", xFieldSpec) ∈ (chooseActionTool ["ACTION1", "ACTION6", "RESET"]).parameters.properties ∧
     "x" ∈ (chooseActionTool ["ACTION1", "ACTION6", "RESET"]).parameters.required ∧
     "y" ∈ (chooseActionTool ["ACTION1", "ACTION6", "RESET"]).parameters.required) :=
  ⟨⟨((claim_C4_schema ["ACTION1", "RESET"]).1 (by decide)).2.1,
    ((claim_C4_schema ["ACTION1", "RESET"]).1 (by decide)).2.2⟩,
   ⟨((claim_C4_schema ["ACTION1", "ACTION6", "RESET"]).2 (by decide)).1,
    ((claim_C4_schema ["ACTION1", "ACTION6", "RESET"]).2 (by decide)).2.2.1,
    ((claim_C4_schema ["ACTION1", "ACTION6", "RESET"]).2 (by decide)).2.2.2.1⟩⟩

-- ---- C5: RESET fallback (corrected: no warning is logged) ----

/-- C5 counterexample: a response with no function call yields the `RESET`
substitute but `warned = false` — no warning is logged, contrary to the
claim. -/
theorem claim_C5_counterexample :
    extractableAction [] = none ∧
    (runCallOpenAI []).actionName = "RESET" ∧
    (runCallOpenAI []).warned = false := by
  decide

/-- C5 (amended): for every decision-client response from which no action
can be extracted (no function call in the output, or arguments lacking a
string action field), the orchestrator substitutes `RESET` as the chosen
action and the loop continues with the turn; no warning is logged in this
case (`console.warn` is only reached for `ACTION6` with invalid
coordinates). -/
theorem claim_C5_reset_fallback (out : List OutputItem)
    (h : extractableAction out = none) :
    (runCallOpenAI out).actionName = "RESET" ∧
    (runCallOpenAI out).warned = false ∧
    (runCallOpenAI out).actionData = none ∧
    ∀ (f : Frame) (s : AgentState),
      stepTurn out (some f) s = Except.ok (afterSubmit out f (afterDecide out s)) := by
  unfold extractableAction at h
  unfold runCallOpenAI
  cases hfc : firstFunctionCall out with
  | none =>
    exact ⟨rfl, rfl, rfl, fun f s => rfl⟩
  | some pr =>
    obtain ⟨args, cid⟩ := pr
    rw [hfc] at h
    dsimp only at h ⊢
    rw [h]
    simp only [Option.getD_none]
    rw [if_neg (by decide)]
    exact ⟨rfl, rfl, rfl, fun f s => rfl⟩

/-- Witness for C5: a function call whose arguments lack a string `action`
field falls back to `RESET` without a warning. -/
theorem claim_C5_witness :
    extractableAction [OutputItem.functionCall emptyArgs none] = none ∧
    (runCallOpenAI [OutputItem.functionCall emptyArgs none]).actionName = "RESET" ∧
    (runCallOpenAI [OutputItem.functionCall emptyArgs none]).warned = false :=
  ⟨by decide,
   (claim_C5_reset_fallback [OutputItem.functionCall emptyArgs none] (by decide)).1,
   (claim_C5_reset_fallback [OutputItem.functionCall emptyArgs none] (by decide)).2.1⟩

-- ---- C6 / C7: coordinate sanitization ----

/-- A response whose single function call picks `ACTION6` with numeric
coordinates `(x, y)`. -/
def coordCall (x y : Int) (cid : Option String) : List OutputItem :=
  [OutputItem.functionCall ⟨some "ACTION6", some x, some y, none, none, none, none⟩ cid]

/-- C6: for every supplied coordinate pair accompanying a chosen `ACTION6`,
the stored pair is the clamp of the input into `[0,63]×[0,63]`; it equals
the input whenever the input was already in range; input `(70, -1)` is
stored as `(63, 0)`; and `doAction` submits exactly the stored pair. -/
theorem claim_C6_clamping (x y : Int) (cid : Option String) :
    (runCallOpenAI (coordCall x y cid)).actionName = "ACTION6" ∧
    (runCallOpenAI (coordCall x y cid)).actionData = some (clampCoord x, clampCoord y) ∧
    (0 ≤ clampCoord x ∧ clampCoord x ≤ 63 ∧ 0 ≤ clampCoord y ∧ clampCoord y ≤ 63) ∧
    (0 ≤ x → x ≤ 63 → clampCoord x = x) ∧
    (0 ≤ y → y ≤ 63 → clampCoord y = y) ∧
    clampCoord 70 = 63 ∧ clampCoord (-1) = 0 ∧
    (∀ (gid g : String) (card : Option String),
      (buildActionPayload gid g card "ACTION6" true
          (some (clampCoord x, clampCoord y))).x = some (clampCoord x) ∧
      (buildActionPayload gid g card "ACTION6" true
          (some (clampCoord x, clampCoord y))).y = some (clampCoord y)) := by
  refine ⟨?_, ?_, ⟨?_, ?_, ?_, ?_⟩, ?_, ?_, by decide, by decide, ?_⟩
  · simp [runCallOpenAI, coordCall, firstFunctionCall]
  · simp [runCallOpenAI, coordCall, firstFunctionCall]
  · unfold clampCoord; omega
  · unfold clampCoord; omega
  · unfold clampCoord; omega
  · unfold clampCoord; omega
  · intro h0 h63; unfold clampCoord; omega
  · intro h0 h63; unfold clampCoord; omega
  · intro gid g card
    constructor
    · simp [buildActionPayload]
    · simp [buildActionPayload]

/-- Witness for C6 at the in-range input `(5, 7)`. -/
theorem claim_C6_witness :
    (runCallOpenAI (coordCall 5 7 none)).actionData = some (5, 7) ∧
    clampCoord 5 = 5 ∧ clampCoord 7 = 7 := by
  have h := claim_C6_clamping 5 7 none
  have h5 : clampCoord 5 = 5 := h.2.2.2.1 (by decide) (by decide)
  have h7 : clampCoord 7 = 7 := h.2.2.2.2.1 (by decide) (by decide)
  refine ⟨?_, h5, h7⟩
  rw [h.2.1, h5, h7]

/-- C7: for every decision that selects `ACTION6` but supplies missing `x`
or `y`, the orchestrator substitutes the pair `(0, 0)`, logs the coordinate
warning, and proceeds to the submission — the turn is never aborted for
invalid coordinates. -/
theorem claim_C7_invalid_coords (out : List OutputItem) (args : DecisionArgs)
    (cid : Option String) (hfc : firstFunctionCall out = some (args, cid))
    (ha : args.action = some "ACTION6") (hxy : args.x = none ∨ args.y = none) :
    (runCallOpenAI out).actionName = "ACTION6" ∧
    (runCallOpenAI out).actionData = some (0, 0) ∧
    (runCallOpenAI out).warned = true ∧
    ∀ (f : Frame) (s : AgentState),
      stepTurn out (some f) s = Except.ok (afterSubmit out f (afterDecide out s)) := by
  unfold runCallOpenAI
  rw [hfc]
  dsimp only
  rw [ha]
  simp only [Option.getD_some, if_true]
  rcases hxy with hx | hy
  · rw [hx]
    cases args.y <;> exact ⟨rfl, rfl, rfl, fun f s => rfl⟩
  · rw [hy]
    cases args.x <;> exact ⟨rfl, rfl, rfl, fun f s => rfl⟩

/-- The concrete response used by the C7 witness: `ACTION6` with a missing
`x` coordinate. -/
def c7Out : List OutputItem :=
  [OutputItem.functionCall ⟨some "ACTION6", none, some 3, none, none, none, none⟩ (some "c7")]

/-- Witness for C7: `ACTION6` with missing `x` is sanitized to `(0, 0)`
with a warning. -/
theorem claim_C7_witness :
    (runCallOpenAI c7Out).actionName = "ACTION6" ∧
    (runCallOpenAI c7Out).actionData = some (0, 0) ∧
    (runCallOpenAI c7Out).warned = true :=
  ⟨(claim_C7_invalid_coords c7Out ⟨some "ACTION6", none, some 3, none, none, none, none⟩
      (some "c7") rfl rfl (Or.inl rfl)).1,
   (claim_C7_invalid_coords c7Out ⟨some "ACTION6", none, some 3, none, none, none, none⟩
      (some "c7") rfl rfl (Or.inl rfl)).2.1,
   (claim_C7_invalid_coords c7Out ⟨some "ACTION6", none, some 3, none, none, none, none⟩
      (some "c7") rfl rfl (Or.inl rfl)).2.2.1⟩

-- ---- Field-preservation helper lemmas ----

/-- Clearing the history leaves `turns` unchanged. -/
theorem applyFullReset_turns (b : Bool) (s : AgentState) :
    (applyFullReset b s).turns = s.turns := by
  unfold applyFullReset clearHistory
  split <;> rfl

/-- Clearing the history leaves `actionCounter` unchanged. -/
theorem applyFullReset_actionCounter (b : Bool) (s : AgentState) :
    (applyFullReset b s).actionCounter = s.actionCounter := by
  unfold applyFullReset clearHistory
  split <;> rfl

/-- Clearing the history leaves `frames` unchanged. -/
theorem applyFullReset_frames (b : Bool) (s : AgentState) :
    (applyFullReset b s).frames = s.frames := by
  unfold applyFullReset clearHistory
  split <;> rfl

/-- Clearing the history leaves `guid` unchanged. -/
theorem applyFullReset_guid (b : Bool) (s : AgentState) :
    (applyFullReset b s).guid = s.guid := by
  unfold applyFullReset clearHistory
  split <;> rfl

-- ---- C8: no partial turn record ----

/-- C8: a turn record is appended to the window only after the action was
both decided and successfully submitted: when the submission throws
(`respFrame = none`), the state at the abort carries the unchanged window,
and a successful submission appends exactly the one completed record. -/
theorem claim_C8_no_partial_turn (out : List OutputItem) (s e : AgentState)
    (h : stepTurn out none s = Except.error e) :
    e.turns = s.turns ∧
    ∀ (f : Frame) (s' : AgentState), stepTurn out (some f) s = Except.ok s' →
      s'.turns = pushTurn s.turns (mkTurnRecord (latestFrame s) out (runCallOpenAI out) f) := by
  constructor
  · have he : e = afterDecide out s := by
      unfold stepTurn at h
      exact (Except.error.inj h).symm
    rw [he]
    rfl
  · intro f s' hok
    have hs' : s' = afterSubmit out f (afterDecide out s) := by
      unfold stepTurn at hok
      exact (Except.ok.inj hok).symm
    rw [hs']
    unfold afterSubmit
    rw [applyFullReset_turns]
    rfl

/-- A concrete state used by the C8 witness. -/
def s8 : AgentState :=
  initialState "g8" (some "card8") ⟨0, "NOT_PLAYED", false, some "guid8", none⟩

/-- Witness for C8: a throwing submission aborts with the window unchanged. -/
theorem claim_C8_witness :
    stepTurn [] none s8 = Except.error (afterDecide [] s8) ∧
    (afterDecide [] s8).turns = s8.turns :=
  ⟨rfl, (claim_C8_no_partial_turn [] s8 (afterDecide [] s8) rfl).1⟩

-- ---- C9: a full reset touches only the cleared history state ----

/-- C9: for every turn whose resulting frame has `full_reset = true`,
handling the reset clears exactly `history` and `screenHistory`; the
action counter is incremented as on any other turn (not reset), the frame
is appended to the accumulated frames, the turn record is pushed, the
session token is updated normally, and the loop's `WIN` check evaluates on
the new frame as on any other turn. -/
theorem claim_C9_full_reset_effect (out : List OutputItem) (f : Frame) (s : AgentState)
    (h : f.full_reset = true) :
    stepTurn out (some f) s = Except.ok (afterSubmit out f (afterDecide out s)) ∧
    (afterSubmit out f (afterDecide out s)).actionCounter = s.actionCounter + 1 ∧
    (afterSubmit out f (afterDecide out s)).frames = s.frames ++ [f] ∧
    (afterSubmit out f (afterDecide out s)).turns =
      pushTurn s.turns (mkTurnRecord (latestFrame s) out (runCallOpenAI out) f) ∧
    (afterSubmit out f (afterDecide out s)).guid = updateGuid s.guid f.guid ∧
    (afterSubmit out f (afterDecide out s)).history = [] ∧
    (afterSubmit out f (afterDecide out s)).screenHistory = [] ∧
    latestIsWin (afterSubmit out f (afterDecide out s)) = (f.state == "WIN") := by
  refine ⟨rfl, ?_, ?_, ?_, ?_, ?_, ?_, ?_⟩
  · unfold afterSubmit
    rw [applyFullReset_actionCounter]
    rfl
  · unfold afterSubmit
    rw [applyFullReset_frames]
    rfl
  · unfold afterSubmit
    rw [applyFullReset_turns]
    rfl
  · unfold afterSubmit
    rw [applyFullReset_guid]
    rfl
  · unfold afterSubmit applyFullReset
    rw [if_pos h]
    rfl
  · unfold afterSubmit applyFullReset
    rw [if_pos h]
    rfl
  · unfold latestIsWin latestFrame afterSubmit
    rw [applyFullReset_frames]
    simp

/-- The frame used by the C9 witness (`full_reset = true`). -/
def f9 : Frame := ⟨2, "PLAYING", true, some "g9b", none⟩

/-- The state used by the C9 witness. -/
def s9 : AgentState :=
  initialState "g9" none ⟨0, "NOT_PLAYED", false, some "g9a", none⟩

/-- Witness for C9 on a concrete full-reset turn. -/
theorem claim_C9_witness :
    f9.full_reset = true ∧
    (afterSubmit [] f9 (afterDecide [] s9)).actionCounter = s9.actionCounter + 1 ∧
    (afterSubmit [] f9 (afterDecide [] s9)).frames = s9.frames ++ [f9] ∧
    (afterSubmit [] f9 (afterDecide [] s9)).history = [] ∧
    (afterSubmit [] f9 (afterDecide [] s9)).screenHistory = [] :=
  ⟨rfl,
   (claim_C9_full_reset_effect [] f9 s9 rfl).2.1,
   (claim_C9_full_reset_effect [] f9 s9 rfl).2.2.1,
   (claim_C9_full_reset_effect [] f9 s9 rfl).2.2.2.2.2.1,
   (claim_C9_full_reset_effect [] f9 s9 rfl).2.2.2.2.2.2.1⟩

-- ---- C1: the reset law fails — turns is not cleared ----

/-- A capped push always ends with the pushed record (cap at least 1). -/
theorem pushTurnCap_eq_append {k : Nat} (hk : 1 ≤ k) (ts : List TurnRecord)
    (t : TurnRecord) :
    ∃ w, pushTurnCap k ts t = w ++ [t] := by
  unfold pushTurnCap
  split
  · rw [takeLast_append_singleton hk]
    exact ⟨takeLast (k - 1) ts, rfl⟩
  · exact ⟨ts, rfl⟩

/-- The last record survives the flatten window (cap at least 1). -/
theorem last_mem_window {k : Nat} (hk : 1 ≤ k) (w : List TurnRecord) (t : TurnRecord) :
    t ∈ (w ++ [t]).drop ((w ++ [t]).length - k) := by
  rw [List.length_append, List.length_cons, List.length_nil,
    List.drop_append_of_le_length (by omega)]
  exact List.mem_append_right _ (List.mem_singleton.mpr rfl)

/-- Flattening the window right after pushing a non-empty record is
non-empty: the just-pushed record is retained. -/
theorem flattenTurns_pushTurn_ne_nil (ts : List TurnRecord) (r : TurnRecord)
    (c : ConvItem) (hc : c ∈ r) :
    flattenTurns (pushTurn ts r) ≠ [] := by
  obtain ⟨w, hw⟩ := @pushTurnCap_eq_append MESSAGE_LIMIT (by decide) ts r
  unfold flattenTurns flattenTurnsCap pushTurn
  rw [hw]
  intro hnil
  have hr : r ∈ (w ++ [r]).drop ((w ++ [r]).length - MESSAGE_LIMIT) :=
    last_mem_window (by decide) w r
  have hmem : c ∈ ((w ++ [r]).drop ((w ++ [r]).length - MESSAGE_LIMIT)).flatten :=
    List.mem_flatten.mpr ⟨r, hr, hc⟩
  rw [hnil] at hmem
  exact absurd hmem (List.not_mem_nil c)

/-- The decision response used by the C1 counterexample. -/
def c1Out : List OutputItem :=
  [OutputItem.functionCall
    ⟨some "ACTION1", none, none, some "probe the mechanic", some "move up",
      some "walls block movement", some "grid has one agent"⟩ (some "call_1")]

/-- The submission result used by the C1 counterexample: a frame whose
`full_reset` flag is set. -/
def c1Frame : Frame := ⟨3, "PLAYING", true, none, some [1, 2, 3, 4]⟩

/-- The pre-turn state used by the C1 counterexample. -/
def c1Start : AgentState :=
  initialState "game1" (some "card1") ⟨0, "NOT_PLAYED", false, some "guid1", some [1, 2, 3, 4]⟩

/-- The post-turn state of the C1 counterexample. -/
def c1After : AgentState := afterSubmit c1Out c1Frame (afterDecide c1Out c1Start)

/-- C1 counterexample: after the orchestrator records a frame whose
`full_reset` flag is true, the flattened window passed to the very next
decision call is NOT empty — `clearHistory` clears `history` and
`screenHistory`, but `flattenTurns` reads `turns`, which keeps the
pre-reset turn records. -/
theorem claim_C1_counterexample :
    c1Frame.full_reset = true ∧
    stepTurn c1Out (some c1Frame) c1Start = Except.ok c1After ∧
    decisionWindow c1After ≠ [] := by
  refine ⟨rfl, rfl, ?_⟩
  decide

/-- C1 (amended): after the orchestrator records a frame whose `full_reset`
flag is true, only the `history` and `screenHistory` lists are emptied; the
`turns` window is left intact (with the completed turn pushed), so the
flattened window passed to the very next decision call still contains the
retained turn records and is non-empty. -/
theorem claim_C1_reset_behaviour (out : List OutputItem) (f : Frame) (s s' : AgentState)
    (hreset : f.full_reset = true) (hstep : stepTurn out (some f) s = Except.ok s') :
    s'.history = [] ∧ s'.screenHistory = [] ∧
    s'.turns = pushTurn s.turns (mkTurnRecord (latestFrame s) out (runCallOpenAI out) f) ∧
    decisionWindow s' ≠ [] := by
  have hs' : s' = afterSubmit out f (afterDecide out s) := by
    unfold stepTurn at hstep
    exact (Except.ok.inj hstep).symm
  subst hs'
  have hturns : (afterSubmit out f (afterDecide out s)).turns =
      pushTurn s.turns (mkTurnRecord (latestFrame s) out (runCallOpenAI out) f) := by
    unfold afterSubmit
    rw [applyFullReset_turns]
    rfl
  refine ⟨?_, ?_, hturns, ?_⟩
  · unfold afterSubmit applyFullReset
    rw [if_pos hreset]
    rfl
  · unfold afterSubmit applyFullReset
    rw [if_pos hreset]
    rfl
  · unfold decisionWindow
    rw [hturns]
    exact flattenTurns_pushTurn_ne_nil _ _
      (ConvItem.userMsg (allowedNamesOpt (latestFrame s))) (List.mem_cons_self _ _)

/-- The frame used by the C1 witness (`full_reset = true`). -/
def w1Frame : Frame := ⟨0, "PLAYING", true, none, none⟩

/-- The state used by the C1 witness. -/
def w1Start : AgentState := initialState "gw" none ⟨0, "NOT_PLAYED", false, none, none⟩

/-- The post-turn state of the C1 witness. -/
def w1After : AgentState := afterSubmit [] w1Frame (afterDecide [] w1Start)

/-- Witness for the amended C1 on a concrete full-reset turn. -/
theorem claim_C1_witness :
    w1Frame.full_reset = true ∧
    w1After.history = [] ∧ w1After.screenHistory = [] ∧
    decisionWindow w1After ≠ [] :=
  ⟨rfl,
   (claim_C1_reset_behaviour [] w1Frame w1Start w1After rfl rfl).1,
   (claim_C1_reset_behaviour [] w1Frame w1Start w1After rfl rfl).2.1,
   (claim_C1_reset_behaviour [] w1Frame w1Start w1After rfl rfl).2.2.2⟩

-- ---- C10: doAction payload and session token ----

/-- C10: for every call to `doAction`, the request payload carries the
session token exactly when one has been established (non-empty `guid`),
carries `card_id` exactly when the action is `RESET` and a truthy card id
is stored, and afterwards the stored token equals the token in the
response whenever the response contains a (truthy) one and is unchanged
when the response carries none. -/
theorem claim_C10_payload (gid guid : String) (cardId : Option String)
    (actionName : String) (rp : Bool) (actionData : Option (Int × Int))
    (respGuid : Option String) :
    ((buildActionPayload gid guid cardId actionName rp actionData).guid ≠ none ↔ guid ≠ "") ∧
    (guid ≠ "" →
      (buildActionPayload gid guid cardId actionName rp actionData).guid = some guid) ∧
    ((buildActionPayload gid guid cardId actionName rp actionData).card_id ≠ none ↔
      actionName = "RESET" ∧ truthyStr cardId ≠ none) ∧
    (actionName = "RESET" →
      (buildActionPayload gid guid cardId actionName rp actionData).card_id = truthyStr cardId) ∧
    (∀ g : String, respGuid = some g → g ≠ "" → updateGuid guid respGuid = g) ∧
    (respGuid = none → updateGuid guid respGuid = guid) := by
  unfold buildActionPayload
  refine ⟨?_, ?_, ?_, ?_, ?_, ?_⟩
  · dsimp only
    by_cases hg : guid = "" <;> simp [hg]
  · intro hg
    dsimp only
    rw [if_neg hg]
  · dsimp only
    by_cases hr : actionName = "RESET"
    · rw [if_pos hr]
      simp [hr]
    · rw [if_neg hr]
      simp [hr]
  · intro hr
    dsimp only
    rw [if_pos hr]
  · intro g hresp hg
    unfold updateGuid
    rw [hresp]
    exact if_neg hg
  · intro hresp
    unfold updateGuid
    rw [hresp]

/-- Witness for C10 on a concrete `RESET` submission with an established
token and a response carrying a new token. -/
theorem claim_C10_witness :
    ("tok" : String) ≠ "" ∧
    (buildActionPayload "G" "tok" (some "card") "RESET" true none).guid = some "tok" ∧
    (buildActionPayload "G" "tok" (some "card") "RESET" true none).card_id =
      truthyStr (some "card") ∧
    updateGuid "tok" (some "new") = "new" :=
  ⟨by decide,
   (claim_C10_payload "G" "tok" (some "card") "RESET" true none (some "new")).2.1 (by decide),
   (claim_C10_payload "G" "tok" (some "card") "RESET" true none (some "new")).2.2.2.1 rfl,
   (claim_C10_payload "G" "tok" (some "card") "RESET" true none (some "new")).2.2.2.2.1
     "new" rfl (by decide)⟩

end ReasoningAgent
